import Mathlib

/-!
Verification development for the gemini-image-chat backend.

The Python sources are shallowly embedded: pure logic becomes Lean
functions, remote calls (Gemini generate_content, HTTP fetches, Shopify
GraphQL) become oracle arguments describing the remote outcome, and the
relational store becomes an explicit record of rows threaded through the
handlers.  Each definition is annotated with the source file and lines it
embeds.
-/

namespace ImageChat

/-- `ImagePurpose` enum (src/schemas/image_chat.py lines 19-29). -/
inductive ImagePurpose where
  | sns_instagram_square
  | sns_instagram_portrait
  | sns_facebook
  | banner_web
  | banner_mobile
  | product_showcase
  | email_header
  | custom
deriving DecidableEq

/-- The `.value` string of each `ImagePurpose` member. -/
def ImagePurpose.toValue : ImagePurpose → String
  | .sns_instagram_square => "sns_instagram_square"
  | .sns_instagram_portrait => "sns_instagram_portrait"
  | .sns_facebook => "sns_facebook"
  | .banner_web => "banner_web"
  | .banner_mobile => "banner_mobile"
  | .product_showcase => "product_showcase"
  | .email_header => "email_header"
  | .custom => "custom"

/-- `ImagePurpose(s)` as a partial lookup: `some p` when `s` is a member
value, `none` when the Python constructor would raise `ValueError`. -/
def ImagePurpose.ofString (s : String) : Option ImagePurpose :=
  if s = "sns_instagram_square" then some .sns_instagram_square
  else if s = "sns_instagram_portrait" then some .sns_instagram_portrait
  else if s = "sns_facebook" then some .sns_facebook
  else if s = "banner_web" then some .banner_web
  else if s = "banner_mobile" then some .banner_mobile
  else if s = "product_showcase" then some .product_showcase
  else if s = "email_header" then some .email_header
  else if s = "custom" then some .custom
  else none

/-- `StylePreset` enum (src/schemas/image_chat.py lines 32-42). -/
inductive StylePreset where
  | modern
  | minimal
  | vibrant
  | luxury
  | playful
  | professional
  | natural
  | tech
deriving DecidableEq

/-- The `.value` string of each `StylePreset` member. -/
def StylePreset.toValue : StylePreset → String
  | .modern => "modern"
  | .minimal => "minimal"
  | .vibrant => "vibrant"
  | .luxury => "luxury"
  | .playful => "playful"
  | .professional => "professional"
  | .natural => "natural"
  | .tech => "tech"

/-- `StylePreset(s)` as a partial lookup: `none` when the Python
constructor would raise `ValueError`. -/
def StylePreset.ofString (s : String) : Option StylePreset :=
  if s = "modern" then some .modern
  else if s = "minimal" then some .minimal
  else if s = "vibrant" then some .vibrant
  else if s = "luxury" then some .luxury
  else if s = "playful" then some .playful
  else if s = "professional" then some .professional
  else if s = "natural" then some .natural
  else if s = "tech" then some .tech
  else none

/-- One entry of `IMAGE_PURPOSE_PRESETS` (src/schemas/image_chat.py
lines 73-130). -/
structure PurposePreset where
  name : String
  ratio : String
  width : Option Nat
  height : Option Nat
  description : String
deriving DecidableEq

/-- `IMAGE_PURPOSE_PRESETS` dict; every purpose has an entry, so the
lookup is total. -/
def IMAGE_PURPOSE_PRESETS : ImagePurpose → PurposePreset
  | .sns_instagram_square =>
      ⟨"Instagram 정사각형", "1:1", some 1080, some 1080, "Instagram 피드용 정사각형 이미지"⟩
  | .sns_instagram_portrait =>
      ⟨"Instagram 세로형", "4:5", some 1080, some 1350, "Instagram 피드용 세로형 이미지"⟩
  | .sns_facebook =>
      ⟨"Facebook 공유", "1.91:1", some 1200, some 630, "Facebook 공유 및 광고용 이미지"⟩
  | .banner_web =>
      ⟨"웹 배너", "3:1", some 1920, some 640, "웹사이트 메인 배너용 이미지"⟩
  | .banner_mobile =>
      ⟨"모바일 배너", "2:1", some 800, some 400, "모바일 웹/앱 배너용 이미지"⟩
  | .product_showcase =>
      ⟨"제품 쇼케이스", "1:1", some 1000, some 1000, "제품 상세페이지용 이미지"⟩
  | .email_header =>
      ⟨"이메일 헤더", "3:1", some 600, some 200, "이메일 마케팅 헤더 이미지"⟩
  | .custom =>
      ⟨"사용자 정의", "custom", none, none, "사용자가 직접 크기 지정"⟩

/-- `PURPOSE_ASPECT_RATIOS` dict (src/modules/gemini_image.py lines
55-64); every purpose has a key, and `_get_aspect_ratio` reads it with
default `"1:1"`, so the embedded lookup is total. -/
def PURPOSE_ASPECT_RATIOS : ImagePurpose → String
  | .sns_instagram_square => "1:1"
  | .sns_instagram_portrait => "9:16"
  | .sns_facebook => "16:9"
  | .banner_web => "16:9"
  | .banner_mobile => "16:9"
  | .product_showcase => "1:1"
  | .email_header => "16:9"
  | .custom => "1:1"

/-- Purpose parsing in the WebSocket handler (src/api/routes/websocket.py
lines 139-142): `ImagePurpose(purpose_str)` with the `ValueError` branch
defaulting to `SNS_INSTAGRAM_SQUARE`. -/
def parsePurpose (purposeStr : String) : ImagePurpose :=
  (ImagePurpose.ofString purposeStr).getD ImagePurpose.sns_instagram_square

/-- Style parsing in the WebSocket handler (src/api/routes/websocket.py
lines 144-149): `style` stays `None` when `style_str` is falsy (absent or
empty) and when `StylePreset(style_str)` raises `ValueError`. -/
def parseStyle (styleStr : Option String) : Option StylePreset :=
  match styleStr with
  | none => none
  | some s => if s = "" then none else StylePreset.ofString s

/-! ## Gemini API content model

A `google.genai` content part is built in this codebase with exactly one
of `text=` or `inline_data=` (gemini_image.py lines 211-219, 296-301,
415-417, 433-437, 575-596), and the response parts are read through the
same disjunction, so a part is embedded as a sum. -/

/-- `types.Blob`: an inline binary payload with its MIME type. -/
structure Blob where
  mimeType : String
  data : List Nat
deriving DecidableEq

/-- One content part: either text or inline binary data. -/
inductive GPart where
  | text (s : String)
  | inlineData (b : Blob)
deriving DecidableEq

/-- `types.Content`: a role plus parts. -/
structure Content where
  role : String
  parts : List GPart
deriving DecidableEq

/-- The in-memory `_chat_sessions` dict of `GeminiImageService`
(gemini_image.py line 100), keyed by session id. -/
structure GeminiState where
  chatSessions : List (String × List Content)
deriving DecidableEq

/-- `GeminiImageService.__init__` starts with an empty `_chat_sessions`
dict (gemini_image.py lines 90-100). -/
def GeminiState.init : GeminiState := ⟨[]⟩

/-- Dict read with default `[]` (`self._chat_sessions.get(session_id, [])`). -/
def GeminiState.getHistory (st : GeminiState) (sid : String) : List Content :=
  ((st.chatSessions.find? (fun kv => kv.1 = sid)).map Prod.snd).getD []

/-- Dict write: replace the entry for `sid`, or add one. -/
def GeminiState.setHistory (st : GeminiState) (sid : String) (h : List Content) : GeminiState :=
  if st.chatSessions.any (fun kv => decide (kv.1 = sid)) then
    ⟨st.chatSessions.map (fun kv => if kv.1 = sid then (sid, h) else kv)⟩
  else ⟨st.chatSessions ++ [(sid, h)]⟩

/-- The `if session_id not in ...: ... = []` plus `.append(...)` pattern
used on every history write. -/
def GeminiState.appendHistory (st : GeminiState) (sid : String) (cs : List Content) : GeminiState :=
  st.setHistory sid (st.getHistory sid ++ cs)

/-- `clear_session` (gemini_image.py lines 445-448). -/
def clear_session (st : GeminiState) (sid : String) : GeminiState :=
  ⟨st.chatSessions.filter (fun kv => kv.1 ≠ sid)⟩

/-- Standard base64 alphabet, as used by `base64.b64encode`. -/
def BASE64_CHARS : List Char :=
  "ABCDEFGHIJKLMNOPQRSTUVWXYZabcdefghijklmnopqrstuvwxyz0123456789+/".toList

/-- The base64 digit for a 6-bit value. -/
def base64Char (n : Nat) : Char := BASE64_CHARS.getD n 'A'

/-- `base64.b64encode(...).decode("utf-8")` on a byte list (values taken
mod 256). -/
def base64Encode : List Nat → String
  | [] => ""
  | [a] =>
      let a := a % 256
      String.mk [base64Char (a / 4), base64Char (a % 4 * 16), '=', '=']
  | [a, b] =>
      let a := a % 256
      let b := b % 256
      String.mk [base64Char (a / 4), base64Char (a % 4 * 16 + b / 16),
        base64Char (b % 16 * 4), '=']
  | a :: b :: c :: rest =>
      let a := a % 256
      let b := b % 256
      let c := c % 256
      String.mk [base64Char (a / 4), base64Char (a % 4 * 16 + b / 16),
        base64Char (b % 16 * 4 + c / 64), base64Char (c % 64)] ++ base64Encode rest

/-! ## Prompt construction (gemini_image.py) -/

/-- `TRDST_BRAND_PROMPT` (gemini_image.py lines 71-88), verbatim. -/
def TRDST_BRAND_PROMPT : String :=
  "Create a premium marketing image for TRDST brand.\n\nTRDST Brand Guidelines:\n- Premium high-end furniture and lighting brand\n- Timeless elegance and sophisticated design\n- Modern luxury with clean lines\n- Warm, inviting atmosphere\n- Professional interior styling\n\nVisual Style Requirements:\n- Neutral, warm color tones (cream, beige, charcoal, gold accents)\n- Clean backgrounds that don't distract from the subject\n- Professional studio or luxury lifestyle setting\n- Subtle shadows and natural lighting effects\n- Minimalist yet luxurious atmosphere\n- High-quality, aspirational imagery\n\n"

/-- The `purpose_hints` dict of `_build_purpose_prompt` (lines 113-121);
`custom` has no key, so `.get(purpose, "")` yields `""` for it. -/
def purposeGenHint : ImagePurpose → String
  | .sns_instagram_square => "eye-catching social media post, vibrant colors, engaging composition"
  | .sns_instagram_portrait => "vertical composition, mobile-optimized, scroll-stopping visual"
  | .sns_facebook => "shareable content, clear message, professional look"
  | .banner_web => "wide banner format, clean layout, brand-focused, text space on sides"
  | .banner_mobile => "mobile-friendly, simple composition, high contrast"
  | .product_showcase => "product-focused, clean background, professional lighting"
  | .email_header => "simple, brand-aligned, minimal text space"
  | .custom => ""

/-- `_build_purpose_prompt` (gemini_image.py lines 106-126): the size
hint requires both width and height truthy (non-`None` and nonzero). -/
def buildPurposePrompt (purpose : ImagePurpose) (basePrompt : String) : String :=
  let preset := IMAGE_PURPOSE_PRESETS purpose
  let sizeHint :=
    match preset.width, preset.height with
    | some w, some h =>
        if w = 0 ∨ h = 0 then ""
        else "Image dimensions: " ++ toString w ++ "x" ++ toString h ++ "px. "
    | _, _ => ""
  sizeHint ++ purposeGenHint purpose ++ ". " ++ basePrompt

/-- The `style_hints` dict of `_build_style_prompt` (lines 133-142). -/
def styleGenHint : StylePreset → String
  | .modern => "modern aesthetic, clean lines, contemporary design"
  | .minimal => "minimalist style, white space, simple elements"
  | .vibrant => "vibrant colors, energetic mood, bold visual"
  | .luxury => "luxury feel, premium quality, sophisticated elegance"
  | .playful => "playful, fun, colorful, friendly vibe"
  | .professional => "professional, corporate, trustworthy appearance"
  | .natural => "natural tones, organic feel, earthy colors"
  | .tech => "tech-focused, futuristic, digital aesthetic"

/-- `_build_style_prompt` (gemini_image.py lines 128-145). -/
def buildStylePrompt (style : Option StylePreset) (basePrompt : String) : String :=
  match style with
  | none => basePrompt
  | some s => basePrompt ++ ". Style: " ++ styleGenHint s

/-! ## Gemini client operations

Remote interactions are oracles: the outcome of
`client.aio.models.generate_content` is an `Except String (List GPart)`
(exception message, or the parts of `response.candidates[0].content`),
and an HTTP GET is a function `String → FetchOutcome`.  Elapsed
wall-clock time is a parameter. -/

/-- Outcome of an `httpx` GET: a response (status, body bytes,
content-type header) or a raised exception. -/
inductive FetchOutcome where
  | response (status : Nat) (body : List Nat) (contentType : Option String)
  | exn (msg : String)
deriving DecidableEq

/-- Whether the fetch returned success (HTTP 200, no exception). -/
def FetchOutcome.ok200 : FetchOutcome → Bool
  | .response s _ _ => s == 200
  | .exn _ => false

/-- A remote call made during a turn, for stating which remote calls a
code path performs. -/
inductive RemoteCall where
  | generateContent
  | httpGet (url : String)
  | upload
deriving DecidableEq

/-- The `ValueError`s raised by `GeminiImageService`, by message shape. -/
inductive GeminiError where
  | noImageInResponse (msg : String)
  | fetchFailed (msg : String)
  | noPreviousImage (sessionId : String)
  | upstream (msg : String)
deriving DecidableEq

/-- `str(e)` of each error as the transport layer would render it. -/
def GeminiError.toMessage : GeminiError → String
  | .noImageInResponse m => m
  | .fetchFailed m => "이전 이미지를 불러오는데 실패했습니다: " ++ m
  | .noPreviousImage sid =>
      "세션 " ++ sid ++ "의 이전 이미지를 찾을 수 없습니다. 먼저 이미지를 생성해주세요."
  | .upstream m => m

/-- `GeneratedImage` dataclass (gemini_image.py lines 20-31). -/
structure GeneratedImage where
  imageData : List Nat
  imageBase64 : String
  mimeType : String
  promptUsed : String
  modelUsed : String
  generationTimeMs : Nat
  width : Option Nat
  height : Option Nat
deriving DecidableEq

/-- `ChatResponse` dataclass (gemini_image.py lines 34-41). -/
structure ChatResponse where
  text : Option String
  image : Option GeneratedImage
  tokensUsed : Nat
  generationTimeMs : Nat
deriving DecidableEq

/-- `ConversationResponse` dataclass (gemini_image.py lines 44-51). -/
structure ConversationResponse where
  text : Option String
  image : Option GeneratedImage
  generationTimeMs : Nat
  shouldGenerate : Bool
deriving DecidableEq

/-- The per-service configuration: the model name given at construction. -/
structure GeminiConfig where
  model : String
deriving DecidableEq

/-- The first part with inline data, as scanned by the `for`/`break`
loops of `generate_image` (lines 195-199) and `refine_image`
(lines 320-324). -/
def firstInlinePart : List GPart → Option Blob
  | [] => none
  | .text _ :: ps => firstInlinePart ps
  | .inlineData b :: _ => some b

/-- The image-extraction policy of `generate_image`/`refine_image`:
take the first inline part, then fail if `image_data` is falsy (absent
or empty bytes, `if not image_data:` at lines 201 and 326). -/
def extractFirstImage (parts : List GPart) : Option Blob :=
  match firstInlinePart parts with
  | some b => if b.data = [] then none else some b
  | none => none

/-- `generate_image` (gemini_image.py lines 147-235).  The aspect ratio
`PURPOSE_ASPECT_RATIOS purpose` is sent with the remote request, whose
outcome is `apiOutcome`. -/
def generate_image (cfg : GeminiConfig) (st : GeminiState)
    (prompt : String) (purpose : ImagePurpose) (style : Option StylePreset)
    (sessionId : Option String)
    (apiOutcome : Except String (List GPart)) (elapsedMs : Nat) :
    Except GeminiError (GeneratedImage × GeminiState) :=
  let brandedPrompt := TRDST_BRAND_PROMPT ++ "User Request: " ++ prompt
  let optimizedPrompt := buildPurposePrompt purpose brandedPrompt
  let optimizedPrompt :=
    match style with
    | some _ => buildStylePrompt style optimizedPrompt
    | none => optimizedPrompt
  match apiOutcome with
  | .error e => .error (.upstream e)
  | .ok parts =>
    match extractFirstImage parts with
    | none => .error (.noImageInResponse "이미지 생성에 실패했습니다. 응답에 이미지가 없습니다.")
    | some blob =>
      let st' :=
        match sessionId with
        | some sid =>
            st.appendHistory sid
              [⟨"user", [GPart.text optimizedPrompt]⟩,
               ⟨"model", [GPart.inlineData blob]⟩]
        | none => st
      let preset := IMAGE_PURPOSE_PRESETS purpose
      .ok (⟨blob.data, base64Encode blob.data, blob.mimeType, optimizedPrompt,
            cfg.model, elapsedMs, preset.width, preset.height⟩, st')

/-- The fixed refinement prompt prefix (gemini_image.py lines 280-286);
the feedback text is appended after it. -/
def REFINE_PROMPT_HEADER : String :=
  "Please modify this image based on the feedback while maintaining TRDST brand guidelines:\n- Premium, sophisticated aesthetic\n- Neutral warm tones (cream, beige, charcoal, gold accents)\n- Clean, minimalist yet luxurious atmosphere\n- Professional quality imagery\n\nFeedback: "

/-- Resolution of the previous image in `refine_image` (gemini_image.py
lines 260-277): the fetch runs only for a truthy URL; a non-200 status
leaves the data unset; an exception becomes the fetch-failed error; and
falsy data (unset or empty bytes) is the no-previous-image error. -/
def resolve_previous_image (sessionId : String) (previousImageUrl : Option String)
    (fetch : String → FetchOutcome) : Except GeminiError (List Nat × String) :=
  let fetched : Except GeminiError (Option (List Nat) × String) :=
    match previousImageUrl with
    | some url =>
      if url = "" then .ok (none, "image/png")
      else
        match fetch url with
        | .exn msg => .error (.fetchFailed msg)
        | .response status body contentType =>
          if status = 200 then
            .ok (some body, (((contentType.getD "image/png").splitOn ";").headD "").trim)
          else .ok (none, "image/png")
    | none => .ok (none, "image/png")
  match fetched with
  | .error e => .error e
  | .ok (data?, mime) =>
    match data? with
    | some d => if d = [] then .error (.noPreviousImage sessionId) else .ok (d, mime)
    | none => .error (.noPreviousImage sessionId)

/-- `refine_image` (gemini_image.py lines 237-345), paired with the list
of remote calls it performs in order.  The generation request (previous
image bytes plus `REFINE_PROMPT_HEADER ++ feedback`) is only sent once
the previous image resolved; refinement never touches the session
history (lines 331-332). -/
def refine_image (cfg : GeminiConfig) (st : GeminiState)
    (sessionId feedback : String) (purpose : ImagePurpose)
    (previousImageUrl : Option String) (fetch : String → FetchOutcome)
    (apiOutcome : Except String (List GPart)) (elapsedMs : Nat) :
    Except GeminiError (GeneratedImage × GeminiState) × List RemoteCall :=
  let fetchTrace : List RemoteCall :=
    match previousImageUrl with
    | some url => if url = "" then [] else [.httpGet url]
    | none => []
  match resolve_previous_image sessionId previousImageUrl fetch with
  | .error e => (.error e, fetchTrace)
  | .ok (_prevData, _prevMime) =>
    let refinePrompt := REFINE_PROMPT_HEADER ++ feedback
    (match apiOutcome with
     | .error e => .error (.upstream e)
     | .ok parts =>
       match extractFirstImage parts with
       | none => .error (.noImageInResponse "이미지 개선에 실패했습니다. 응답에 이미지가 없습니다.")
       | some blob =>
         let preset := IMAGE_PURPOSE_PRESETS purpose
         .ok (⟨blob.data, base64Encode blob.data, blob.mimeType, refinePrompt,
               cfg.model, elapsedMs, preset.width, preset.height⟩, st),
     fetchTrace ++ [.generateContent])

/-- The consultant system prompt of `chat` (gemini_image.py lines
386-413), verbatim. -/
def CHAT_SYSTEM_PROMPT : String :=
  "You are a creative marketing image consultant for TRDST.\n\n## About TRDST\nTRDST is a premium brand specializing in high-end furniture and lighting.\nOur aesthetic emphasizes:\n- Timeless elegance and sophisticated design\n- Premium materials and craftsmanship\n- Modern luxury with clean lines\n- Warm, inviting atmosphere\n- Professional interior styling\n\n## Your Role\nHelp TRDST team create stunning marketing images by:\n1. Understanding campaign goals and target audience (luxury home enthusiasts, interior designers, architects)\n2. Suggesting visual concepts that align with TRDST's premium brand identity\n3. Recommending sophisticated color palettes, lighting, and compositions\n4. Providing expert feedback on furniture/lighting photography concepts\n5. Ensuring images convey quality, elegance, and aspiration\n\n## Style Guidelines\n- Prefer neutral, warm tones (cream, beige, charcoal, gold accents)\n- Clean backgrounds that don't distract from products\n- Professional studio or lifestyle setting\n- Subtle shadows and natural lighting effects\n- Minimalist yet luxurious atmosphere\n\nWhen the user is ready to generate an image, ask them to confirm and I will create it.\nAlways respond in Korean."

/-- The request contents built by the text branch of `chat`
(gemini_image.py lines 415-417): system prompt, then the session
history, then the new user message. -/
def chatContents (st : GeminiState) (sessionId message : String) : List Content :=
  ⟨"user", [GPart.text CHAT_SYSTEM_PROMPT]⟩ ::
    (st.getHistory sessionId ++ [⟨"user", [GPart.text message]⟩])

/-- `chat` (gemini_image.py lines 347-443).  With `generateImageFlag`
it delegates to `generate_image`; otherwise it sends `chatContents`
text-only (outcome `textApiOutcome`, the `response.text`), appends both
turns to the history, and returns the text. -/
def chat (cfg : GeminiConfig) (st : GeminiState)
    (sessionId message : String) (purpose : ImagePurpose)
    (generateImageFlag : Bool) (style : Option StylePreset)
    (genApiOutcome : Except String (List GPart))
    (textApiOutcome : Except String String) (elapsedMs : Nat) :
    Except GeminiError (ChatResponse × GeminiState) :=
  if generateImageFlag then
    match generate_image cfg st message purpose style (some sessionId) genApiOutcome elapsedMs with
    | .error e => .error e
    | .ok (img, st') => .ok (⟨none, some img, 0, img.generationTimeMs⟩, st')
  else
    match textApiOutcome with
    | .error e => .error (.upstream e)
    | .ok textResponse =>
      let st' := st.appendHistory sessionId
        [⟨"user", [GPart.text message]⟩, ⟨"model", [GPart.text textResponse]⟩]
      .ok (⟨some textResponse, none, 0, elapsedMs⟩, st')

/-- The unified system prompt of `converse` (gemini_image.py lines
484-521), verbatim. -/
def CONVERSE_SYSTEM_PROMPT : String :=
  "You are a creative marketing image consultant and generator for TRDST, a premium furniture and lighting brand.\n\n## Your Role\nYou help create stunning marketing images through natural conversation:\n1. **Understand the vision**: Ask clarifying questions about goals, audience, and style\n2. **Develop the concept**: Suggest ideas, discuss compositions, refine details\n3. **Generate when ready**: When the concept is clear enough, generate the image\n\n## When to Generate Images\nGenerate an image when:\n- The user explicitly asks to create/generate an image\n- The concept has been discussed and refined enough\n- The user confirms they want to proceed with generation\n- Keywords like \"만들어\", \"생성해\", \"보여줘\", \"그려줘\" appear\n\nDo NOT generate images when:\n- Still exploring initial ideas\n- Need more clarification on requirements\n- User is asking questions about possibilities\n\n## TRDST Brand Guidelines\n- Premium, high-end aesthetic\n- Neutral warm tones (cream, beige, charcoal, gold accents)\n- Clean, minimalist yet luxurious\n- Professional studio or lifestyle settings\n- Natural lighting, subtle shadows\n\n## Response Format\n- If NOT generating: Provide helpful text response in Korean\n- If generating: Include both explanatory text AND the image\n\n## Image Generation Instructions (when generating)\nWhen you decide to generate an image, create it following:\n- TRDST brand visual identity\n- The discussed concept and requirements\n- The selected purpose and style settings\n\nAlways respond in Korean. Be conversational, creative, and helpful."

/-- `purpose_hints` of `converse` (lines 524-533); every member has a
key, so `.get(purpose, purpose.value)` never falls back. -/
def conversePurposeHint : ImagePurpose → String
  | .sns_instagram_square => "Instagram 정사각형 포스트용 (1:1)"
  | .sns_instagram_portrait => "Instagram 세로형 포스트용 (9:16)"
  | .sns_facebook => "Facebook 피드용 (16:9)"
  | .banner_web => "웹 배너용 (16:9 와이드)"
  | .banner_mobile => "모바일 배너용 (16:9)"
  | .product_showcase => "제품 쇼케이스용 (1:1)"
  | .email_header => "이메일 헤더용 (16:9)"
  | .custom => "커스텀 용도"

/-- `style_hints` of `converse` (lines 534-543). -/
def converseStyleHint : StylePreset → String
  | .modern => "모던"
  | .minimal => "미니멀"
  | .vibrant => "비비드"
  | .luxury => "럭셔리"
  | .playful => "플레이풀"
  | .professional => "프로페셔널"
  | .natural => "자연스러운"
  | .tech => "테크"

/-- The previous-image resolution of `converse` (lines 549-563): a fetch
failure degrades to a note in the context prompt instead of failing the
turn; the modification-mode line is appended whenever no exception was
raised, even on a non-200 status. Returns (optional bytes, mime type,
text appended to the context prompt). -/
def conversePreviousImage (previousImageUrl : Option String)
    (fetch : String → FetchOutcome) : Option (List Nat) × String × String :=
  match previousImageUrl with
  | some url =>
    if url = "" then (none, "image/png", "")
    else
      match fetch url with
      | .exn msg => (none, "image/png", "\n- Note: 이전 이미지 로드 실패 (" ++ msg ++ ")")
      | .response status body contentType =>
        if status = 200 then
          (some body, (((contentType.getD "image/png").splitOn ";").headD "").trim,
           "\n- Mode: 이전 이미지를 기반으로 수정/개선")
        else (none, "image/png", "\n- Mode: 이전 이미지를 기반으로 수정/개선")
  | none => (none, "image/png", "")

/-- The `[Current Settings]` context prompt of `converse`
(lines 545-547), before the previous-image note. -/
def converseContextPrompt (purpose : ImagePurpose) (style : Option StylePreset) : String :=
  let base := "\n\n[Current Settings]\n- Purpose: " ++ conversePurposeHint purpose
  match style with
  | some s => base ++ "\n- Style: " ++ converseStyleHint s
  | none => base

/-- The request contents built by `converse` (lines 571-596): system
prompt plus context, the history, then the user parts (previous image
bytes when truthy, then the message text). -/
def converseContents (st : GeminiState) (sessionId message : String)
    (purpose : ImagePurpose) (style : Option StylePreset)
    (previousImageUrl : Option String) (fetch : String → FetchOutcome) : List Content :=
  let (prevData?, prevMime, ctxNote) := conversePreviousImage previousImageUrl fetch
  let userParts :=
    (match prevData? with
     | some d => if d = [] then [] else [GPart.inlineData ⟨prevMime, d⟩]
     | none => []) ++ [GPart.text message]
  ⟨"user", [GPart.text (CONVERSE_SYSTEM_PROMPT ++ converseContextPrompt purpose style ++ ctxNote)]⟩ ::
    (st.getHistory sessionId ++ [⟨"user", userParts⟩])

/-- The response-parsing loop of `converse` (gemini_image.py lines
615-628): truthy text parts are joined with a newline into the
accumulator, and each inline part overwrites the image accumulator. -/
def converseLoop : List GPart → Option String → Option Blob → Option String × Option Blob
  | [], t, img => (t, img)
  | .text s :: ps, t, img =>
      if s = "" then converseLoop ps t img
      else
        match t with
        | some t0 => converseLoop ps (some (t0 ++ "\n" ++ s)) img
        | none => converseLoop ps (some s) img
  | .inlineData b :: ps, t, _ => converseLoop ps t (some b)

/-- The parse of a full `converse` response: text and image accumulators
both start unset. -/
def converseParse (parts : List GPart) : Option String × Option Blob :=
  converseLoop parts none none

/-- `converse` (gemini_image.py lines 454-668).  The request contents
are `converseContents` (sent to the remote model, whose reply is
`responseParts`); only text is written back into the history; the
response image is built when the parsed image bytes are truthy, while
`shouldGenerate` is `image_data is not None`. -/
def converse (cfg : GeminiConfig) (st : GeminiState)
    (sessionId message : String) (purpose : ImagePurpose) (style : Option StylePreset)
    (previousImageUrl : Option String) (fetch : String → FetchOutcome)
    (responseParts : List GPart) (elapsedMs : Nat) :
    ConversationResponse × GeminiState :=
  let _reqContents := converseContents st sessionId message purpose style previousImageUrl fetch
  let (textResponse, imageData?) := converseParse responseParts
  let st1 := st.appendHistory sessionId [⟨"user", [GPart.text message]⟩]
  let st2 :=
    match textResponse with
    | some t => if t = "" then st1 else st1.appendHistory sessionId [⟨"model", [GPart.text t]⟩]
    | none => st1
  let image? :=
    match imageData? with
    | some b =>
      if b.data = [] then none
      else
        let preset := IMAGE_PURPOSE_PRESETS purpose
        some (⟨b.data, base64Encode b.data, b.mimeType, message, cfg.model,
               elapsedMs, preset.width, preset.height⟩ : GeneratedImage)
    | none => none
  (⟨textResponse, image?, elapsedMs, imageData?.isSome⟩, st2)

/-! ## Shopify file-upload client (src/modules/shopify_files.py)

The three remote calls (stagedUploadsCreate, the binary POST, and
fileCreate) plus the lazy token fetch are oracles describing the remote
outcomes; `upload_image` folds them exactly as the source does. -/

/-- `UploadedFile` dataclass (shopify_files.py lines 17-22). -/
structure UploadedFile where
  url : String
  alt : Option String
  fileId : Option String
deriving DecidableEq

/-- One staged target returned by `stagedUploadsCreate`
(shopify_files.py lines 148-151). -/
structure StagedTarget where
  url : String
  resourceUrl : String
  parameters : List (String × String)
deriving DecidableEq

/-- The parsed JSON of the staged-upload GraphQL response:
top-level `errors`, the mutation's `userErrors`, and its targets. -/
structure StagedResponse where
  errors : Option String
  userErrors : List String
  stagedTargets : List StagedTarget
deriving DecidableEq

/-- The `image { url }` selection of a created `MediaImage`; per the
GraphQL query shape the `url` field is present whenever the `image`
object is. -/
structure CreatedFileImage where
  url : String
deriving DecidableEq

/-- One file record returned by `fileCreate` (lines 213-224); `image` is
`none` when the key is absent (non-MediaImage), null, or falsy. -/
structure CreatedFile where
  id : String
  image : Option CreatedFileImage
deriving DecidableEq

/-- The parsed JSON of the fileCreate GraphQL response. -/
structure FileCreateResponse where
  errors : Option String
  userErrors : List String
  files : List CreatedFile
deriving DecidableEq

/-- The `ValueError`s/`IndexError` of `upload_image`, by source site. -/
inductive UploadError where
  | tokenFailed (msg : String)
  | stagedApiErrors (msg : String)
  | stagedUserErrors
  | noStagedTarget
  | transferStatus (status : Nat)
  | fileApiErrors (msg : String)
  | fileUserErrors
deriving DecidableEq

/-- `upload_image` (shopify_files.py lines 81-225) over the remote
outcomes: `tokenOutcome` is `_get_access_token` (lines 41-71),
`staged` the parsed stagedUploadsCreate response, `transferStatus` the
status of the binary POST, `fileResp` the parsed fileCreate response.
The final URL comes from the created file record's image when that is
truthy, else from the staged target's `resourceUrl` (lines 212-219). -/
def upload_image (tokenOutcome : Except String String)
    (staged : StagedResponse) (transferStatus : Nat)
    (fileResp : FileCreateResponse)
    (_imageData : List Nat) (_filename : String) (_mimeType : String)
    (alt : Option String) : Except UploadError UploadedFile :=
  match tokenOutcome with
  | .error m => .error (.tokenFailed m)
  | .ok _token =>
    match staged.errors with
    | some m => .error (.stagedApiErrors m)
    | none =>
      if staged.userErrors ≠ [] then .error .stagedUserErrors
      else
        match staged.stagedTargets.head? with
        | none => .error .noStagedTarget
        | some target =>
          if transferStatus ≠ 200 ∧ transferStatus ≠ 201 ∧ transferStatus ≠ 204 then
            .error (.transferStatus transferStatus)
          else
            match fileResp.errors with
            | some m => .error (.fileApiErrors m)
            | none =>
              if fileResp.userErrors ≠ [] then .error .fileUserErrors
              else
                let createdFile := fileResp.files.head?
                let finalUrl :=
                  match createdFile with
                  | some cf =>
                    match cf.image with
                    | some img => img.url
                    | none => target.resourceUrl
                  | none => target.resourceUrl
                .ok ⟨finalUrl, alt, createdFile.map (·.id)⟩

/-! ## Python keyword-argument binding (for the `ShopifyFilesService`
construction in the WebSocket handler) -/

/-- A formal parameter of a Python callable: its name and whether it has
a default. -/
structure PyParam where
  name : String
  hasDefault : Bool
deriving DecidableEq

/-- The `TypeError`s CPython raises when binding keyword arguments. -/
inductive PyCallError where
  | unexpectedKeyword (k : String)
  | missingArgument (p : String)
deriving DecidableEq

/-- CPython keyword-argument binding for a call made with keywords only:
a keyword naming no parameter is a `TypeError`, as is a parameter
without default left unbound. -/
def bindKwargs (params : List PyParam) (kwargs : List (String × String)) :
    Except PyCallError (List (String × String)) :=
  match kwargs.find? (fun kv => ¬ params.any (fun p => p.name = kv.1)) with
  | some kv => .error (.unexpectedKeyword kv.1)
  | none =>
    match params.find? (fun p => ¬ p.hasDefault ∧ ¬ kwargs.any (fun kv => kv.1 = p.name)) with
    | some p => .error (.missingArgument p.name)
    | none => .ok kwargs

/-- The parameter list of `ShopifyFilesService.__init__`
(shopify_files.py line 28): `store_url`, `client_id`, `client_secret`,
all without defaults (`self` binds implicitly). -/
def shopifyInitParams : List PyParam :=
  [⟨"store_url", false⟩, ⟨"client_id", false⟩, ⟨"client_secret", false⟩]

/-- The Shopify-service construction of the WebSocket handler
(websocket.py lines 110-115): when both settings are truthy it calls
`ShopifyFilesService(store_url=..., access_token=...)`; otherwise the
service stays `None`. -/
def wsInitShopify (storeUrl accessToken : String) :
    Except PyCallError (Option (List (String × String))) :=
  if storeUrl ≠ "" ∧ accessToken ≠ "" then
    (bindKwargs shopifyInitParams
      [("store_url", storeUrl), ("access_token", accessToken)]).map some
  else .ok none

/-! ## Relational store (src/storage/models.py)

Rows are records, the store a record of row lists.  Generated `uuid4`
ids are modelled by a fresh-id counter threaded through the store; the
opaque `generation_metadata` JSON blob is not modelled (no code path
reads it back). -/

/-- `ImageChatMessage` row (models.py lines 50-74). -/
structure MessageRow where
  id : Nat
  sessionId : String
  role : String
  contentType : String
  textContent : Option String
  imageUrl : Option String
  tokensUsed : Nat
  generationTimeMs : Option Nat
deriving DecidableEq

/-- `GeneratedMarketingImage` row (models.py lines 77-111). -/
structure ImageRow where
  id : Nat
  sessionId : String
  messageId : Nat
  imageUrl : String
  width : Option Nat
  height : Option Nat
  format : String
  promptUsed : String
  modelUsed : String
  imagePurpose : String
deriving DecidableEq

/-- `ImageChatSession` row (models.py lines 16-47). -/
structure SessionRow where
  id : String
  imagePurpose : String
  status : String
  stylePreset : Option String
  finalImageUrl : Option String
  messagesCount : Nat
  imagesGenerated : Nat
  totalTokensUsed : Nat
deriving DecidableEq

/-- The persisted store: the three tables plus the fresh-id counter. -/
structure DB where
  sessions : List SessionRow
  messages : List MessageRow
  images : List ImageRow
  nextId : Nat
deriving DecidableEq

/-- The Message rows of one session. -/
def DB.messagesOf (db : DB) (sid : String) : List MessageRow :=
  db.messages.filter (fun m => m.sessionId = sid)

/-- The GeneratedImage rows of one session. -/
def DB.imagesOf (db : DB) (sid : String) : List ImageRow :=
  db.images.filter (fun i => i.sessionId = sid)

/-- `mime_type.split("/")[-1] if "/" in mime_type else "png"`
(websocket.py lines 280 and 380, image_chat_service.py lines 335
and 410). -/
def mimeFormat (mime : String) : String :=
  if mime.contains '/' then (mime.splitOn "/").getLastD "png" else "png"

/-- The base64 data URL built when no upload URL is used
(`f"data:{...};base64,{...}"`). -/
def dataUrl (g : GeneratedImage) : String :=
  "data:" ++ g.mimeType ++ ";base64," ++ g.imageBase64

/-! ## WebSocket handler (src/api/routes/websocket.py) -/

/-- `save_message` (websocket.py lines 30-54): insert one message row;
`tokens_used` is not passed there, so it takes the column default 0. -/
def save_message (db : DB) (sessionId role contentType : String)
    (textContent : Option String) (imageUrl : Option String)
    (generationTimeMs : Option Nat) : MessageRow × DB :=
  let row : MessageRow :=
    ⟨db.nextId, sessionId, role, contentType, textContent, imageUrl, 0, generationTimeMs⟩
  (row, { db with messages := db.messages ++ [row], nextId := db.nextId + 1 })

/-- `update_session_counts` (websocket.py lines 57-74): bump the
matching session's counters if it exists (`scalar_one_or_none` plus
`if session:`), set `final_image_url` only when truthy.  The map-update
matches the source whenever session ids are unique, which the theorems
hypothesize. -/
def update_session_counts (db : DB) (sessionId : String)
    (messagesAdded imagesAdded : Nat) (finalImageUrl : Option String) : DB :=
  { db with
    sessions := db.sessions.map (fun s =>
      if s.id = sessionId then
        { s with
          messagesCount := s.messagesCount + messagesAdded,
          imagesGenerated := s.imagesGenerated + imagesAdded,
          finalImageUrl :=
            match finalImageUrl with
            | some u => if u = "" then s.finalImageUrl else some u
            | none => s.finalImageUrl }
      else s) }

/-- An outbound WebSocket event, reduced to its discriminating fields
(`type`, `content`, `image_url`). -/
inductive WsEvent where
  | status (content : String)
  | message (content : Option String)
  | image (content : String) (imageUrl : String)
  | error (content : String)
deriving DecidableEq

/-- Whether an `error`-kind event was sent. -/
def hasErrorEvent (evs : List WsEvent) : Bool :=
  evs.any fun e =>
    match e with
    | .error _ => true
    | _ => false

/-- An inbound frame after `json.loads`: the fields the handler reads,
each `none` when the key is absent (websocket.py lines 131-137). -/
structure Frame where
  type : Option String
  content : Option String
  purpose : Option String
  style : Option String
deriving DecidableEq

/-- The per-connection context: whether each external service was
configured (websocket.py lines 101-115; the Shopify construction itself
is `wsInitShopify`) and the Gemini model name. -/
structure WsCtx where
  geminiConfigured : Bool
  shopifyConfigured : Bool
  cfg : GeminiConfig

/-- The remote outcomes one turn can consume: the text-chat reply, the
generation reply, the previous-image fetcher, the Shopify upload
outcome, and the elapsed time. -/
structure WsOracle where
  textApi : Except String String
  genApi : Except String (List GPart)
  fetch : String → FetchOutcome
  uploadOutcome : Except String UploadedFile
  elapsedMs : Nat

/-- The shared persist block of the `generate` and `refine` branches
(websocket.py lines 232-308 and 333-408, identical but for the result
strings): try the Shopify upload when a client is configured — an
upload exception falls back to the base64 data URL (lines 240-251) —
then save the assistant message, the image record, and the counters,
and emit the `image` event. -/
def wsPersistImageTurn (ctx : WsCtx) (sessionId : String) (purpose : ImagePurpose)
    (generated : GeneratedImage) (uploadOutcome : Except String UploadedFile)
    (doneMessage : String) (db : DB) : DB × List WsEvent :=
  let (statusEvents, imageUrl) :=
    if ctx.shopifyConfigured then
      ([WsEvent.status "이미지 저장 중..."],
       match uploadOutcome with
       | .ok uploaded => uploaded.url
       | .error _ => dataUrl generated)
    else ([], dataUrl generated)
  let (assistantMsg, db1) := save_message db sessionId "assistant" "image"
    (some doneMessage) (some imageUrl) (some generated.generationTimeMs)
  let imageRecord : ImageRow :=
    ⟨db1.nextId, sessionId, assistantMsg.id, imageUrl, generated.width,
     generated.height, mimeFormat generated.mimeType, generated.promptUsed,
     generated.modelUsed, purpose.toValue⟩
  let db2 := { db1 with images := db1.images ++ [imageRecord], nextId := db1.nextId + 1 }
  let db3 := update_session_counts db2 sessionId 2 1 (some imageUrl)
  (db3, statusEvents ++ [WsEvent.image doneMessage imageUrl])

/-- The dispatch core of one `image_chat_websocket` loop iteration
(websocket.py lines 151-422), after frame parsing: the gemini-service
guard, then the four `if`/`elif` arms (`chat`, `generate`, `refine`,
unknown), with every exception caught into an `error` event while the
store keeps the writes committed before the failure.  The result is the
store, the in-memory history, the outbound events, and the remote calls
made. -/
def wsDispatch (ctx : WsCtx) (sessionId msgType content : String)
    (purpose : ImagePurpose) (style : Option StylePreset) (orc : WsOracle)
    (db : DB) (gst : GeminiState) : DB × GeminiState × List WsEvent × List RemoteCall :=
  if ¬ ctx.geminiConfigured then
    (db, gst, [.error "GEMINI_API_KEY가 설정되지 않았습니다."], [])
  else if msgType = "chat" then
    let ev0 := [WsEvent.status "응답 생성 중..."]
    let (_userMsg, db1) := save_message db sessionId "user" "text" (some content) none none
    match chat ctx.cfg gst sessionId content purpose false style orc.genApi orc.textApi orc.elapsedMs with
    | .error e =>
        (db1, gst, ev0 ++ [.error ("오류 발생: " ++ e.toMessage)], [.generateContent])
    | .ok (resp, gst') =>
        let (_assistantMsg, db2) := save_message db1 sessionId "assistant" "text"
          resp.text none (some resp.generationTimeMs)
        let db3 := update_session_counts db2 sessionId 2 0 none
        (db3, gst', ev0 ++ [.message resp.text], [.generateContent])
  else if msgType = "generate" then
    let ev0 := [WsEvent.status "이미지 생성 중..."]
    let (_userMsg, db1) := save_message db sessionId "user" "text"
      (some ("[이미지 생성] " ++ content)) none none
    match generate_image ctx.cfg gst content purpose style (some sessionId) orc.genApi orc.elapsedMs with
    | .error e =>
        (db1, gst, ev0 ++ [.error ("오류 발생: " ++ e.toMessage)], [.generateContent])
    | .ok (generated, gst') =>
        let uploadTrace := if ctx.shopifyConfigured then [RemoteCall.upload] else []
        let (db2, evs) := wsPersistImageTurn ctx sessionId purpose generated
          orc.uploadOutcome "이미지가 생성되었습니다." db1
        (db2, gst', ev0 ++ evs, [.generateContent] ++ uploadTrace)
  else if msgType = "refine" then
    let ev0 := [WsEvent.status "이미지 개선 중..."]
    let (_userMsg, db1) := save_message db sessionId "user" "text"
      (some ("[이미지 개선] " ++ content)) none none
    let (result, trace) := refine_image ctx.cfg gst sessionId content purpose
      none orc.fetch orc.genApi orc.elapsedMs
    match result with
    | .error e =>
        (db1, gst, ev0 ++ [.error ("오류 발생: " ++ e.toMessage)], trace)
    | .ok (generated, gst') =>
        let uploadTrace := if ctx.shopifyConfigured then [RemoteCall.upload] else []
        let (db2, evs) := wsPersistImageTurn ctx sessionId purpose generated
          orc.uploadOutcome "이미지가 개선되었습니다." db1
        (db2, gst', ev0 ++ evs, trace ++ uploadTrace)
  else
    (db, gst, [.error ("알 수 없는 메시지 타입: " ++ msgType)], [])

/-- One loop iteration of `image_chat_websocket` (websocket.py lines
126-422): read the frame fields with their defaults (lines 131-137),
parse the purpose and style with their silent fallbacks (lines
139-149), and dispatch. -/
def wsStep (ctx : WsCtx) (sessionId : String) (frame : Frame) (orc : WsOracle)
    (db : DB) (gst : GeminiState) : DB × GeminiState × List WsEvent × List RemoteCall :=
  wsDispatch ctx sessionId (frame.type.getD "chat") (frame.content.getD "")
    (parsePurpose (frame.purpose.getD "sns_instagram_square"))
    (parseStyle frame.style) orc db gst

/-! ## REST service layer (src/services/image_chat_service.py)

`get_service` (src/api/routes/image_chat.py lines 30-32) builds a fresh
`ImageChatService` per request; its constructor (lines 38-47) builds a
fresh `GeminiImageService` — hence a fresh, empty `_chat_sessions` —
whenever an API key is configured. -/

/-- The Gemini state held by a freshly constructed `ImageChatService`:
`none` without an API key, else a brand-new empty history map. -/
def serviceInitGeminiState (geminiApiKey : String) : Option GeminiState :=
  if geminiApiKey ≠ "" then some GeminiState.init else none

/-- The Gemini state a REST request starts from (`get_service` makes a
new service instance for every request). -/
def restRequestGeminiState (geminiApiKey : String) : Option GeminiState :=
  serviceInitGeminiState geminiApiKey

/-- `ImageChatService.send_message` (image_chat_service.py lines
186-235): check the session, persist the user message, run the text
chat, persist the assistant message, bump `messages_count` by 2 and
`total_tokens_used`.  A raised `ValueError` leaves the writes committed
so far. -/
def service_send_message (geminiConfigured : Bool) (cfg : GeminiConfig)
    (db : DB) (gst : GeminiState) (sessionId content : String)
    (genApi : Except String (List GPart)) (textApi : Except String String)
    (elapsedMs : Nat) : Except String MessageRow × DB × GeminiState :=
  match db.sessions.find? (fun s => s.id = sessionId) with
  | none => (.error ("세션을 찾을 수 없습니다: " ++ sessionId), db, gst)
  | some session =>
    let (_userMsg, db1) := save_message db sessionId "user" "text" (some content) none none
    match ImagePurpose.ofString session.imagePurpose with
    | none => (.error (session.imagePurpose ++ " is not a valid ImagePurpose"), db1, gst)
    | some purpose =>
      let styleParsed : Except String (Option StylePreset) :=
        match session.stylePreset with
        | none => .ok none
        | some s =>
          if s = "" then .ok none
          else
            match StylePreset.ofString s with
            | none => .error (s ++ " is not a valid StylePreset")
            | some st => .ok (some st)
      match styleParsed with
      | .error m => (.error m, db1, gst)
      | .ok style =>
        if ¬ geminiConfigured then
          (.error "GEMINI_API_KEY가 설정되지 않았습니다.", db1, gst)
        else
          match chat cfg gst sessionId content purpose false style genApi textApi elapsedMs with
          | .error e => (.error e.toMessage, db1, gst)
          | .ok (resp, gst') =>
            let (assistantMsg, db2) := save_message db1 sessionId "assistant" "text"
              resp.text none (some resp.generationTimeMs)
            let db3 : DB :=
              { db2 with
                sessions := db2.sessions.map (fun s =>
                  if s.id = sessionId then
                    { s with
                      messagesCount := s.messagesCount + 2,
                      totalTokensUsed := s.totalTokensUsed + resp.tokensUsed }
                  else s) }
            (.ok assistantMsg, db3, gst')

/-- `ImageChatService.refine_image` (image_chat_service.py lines
351-424): check the session, persist the feedback message, call
`GeminiImageService.refine_image` — passing `session_id`, `feedback`
and `purpose` only, hence `previous_image_url=None` (lines 376-380) —
then, were it to succeed, persist the assistant message, the image
record (as a base64 data URL), and the counters. -/
def service_refine_image (geminiConfigured : Bool) (cfg : GeminiConfig)
    (db : DB) (gst : GeminiState) (sessionId feedback : String)
    (fetch : String → FetchOutcome) (genApi : Except String (List GPart))
    (elapsedMs : Nat) : Except String MessageRow × DB × GeminiState × List RemoteCall :=
  match db.sessions.find? (fun s => s.id = sessionId) with
  | none => (.error ("세션을 찾을 수 없습니다: " ++ sessionId), db, gst, [])
  | some session =>
    let (_userMsg, db1) := save_message db sessionId "user" "text"
      (some ("[이미지 개선 요청] " ++ feedback)) none none
    match ImagePurpose.ofString session.imagePurpose with
    | none => (.error (session.imagePurpose ++ " is not a valid ImagePurpose"), db1, gst, [])
    | some purpose =>
      if ¬ geminiConfigured then
        (.error "GEMINI_API_KEY가 설정되지 않았습니다.", db1, gst, [])
      else
        let (result, trace) := refine_image cfg gst sessionId feedback purpose
          none fetch genApi elapsedMs
        match result with
        | .error e => (.error e.toMessage, db1, gst, trace)
        | .ok (generated, gst') =>
          let imageUrl := dataUrl generated
          let (assistantMsg, db2) := save_message db1 sessionId "assistant" "image"
            (some "이미지가 개선되었습니다.") (some imageUrl) (some generated.generationTimeMs)
          let imageRecord : ImageRow :=
            ⟨db2.nextId, sessionId, assistantMsg.id, imageUrl, generated.width,
             generated.height, mimeFormat generated.mimeType, generated.promptUsed,
             generated.modelUsed, session.imagePurpose⟩
          let db3 := { db2 with images := db2.images ++ [imageRecord], nextId := db2.nextId + 1 }
          let db4 : DB :=
            { db3 with
              sessions := db3.sessions.map (fun s =>
                if s.id = sessionId then
                  { s with
                    messagesCount := s.messagesCount + 2,
                    imagesGenerated := s.imagesGenerated + 1,
                    finalImageUrl := some imageUrl }
                else s) }
          (.ok assistantMsg, db4, gst', trace)

/-! ## Spec-side definitions

Definitions below follow the spec's wording (amended where a claim is
corrected), for comparison against the source-side definitions above. -/

/-- The nonempty text contents of a part list, in order. -/
def textPieces (ps : List GPart) : List String :=
  ps.filterMap fun p =>
    match p with
    | .text s => if s = "" then none else some s
    | .inlineData _ => none

/-- The newline-joined concatenation of the nonempty text parts, `none`
when there are none. -/
def joinedTexts (ps : List GPart) : Option String :=
  match textPieces ps with
  | [] => none
  | t :: ts => some (ts.foldl (fun acc s => acc ++ "\n" ++ s) t)

/-- The last inline binary part of a part list, if any. -/
def lastInlinePart : List GPart → Option Blob
  | [] => none
  | .text _ :: ps => lastInlinePart ps
  | .inlineData b :: ps =>
      match lastInlinePart ps with
      | some c => some c
      | none => some b

/-- The spec's wording for the upload result URL: the file record's
image URL when one is immediately available, else the staging step's
resource URL. -/
def fileRecordImageUrl (fr : FileCreateResponse) : Option String :=
  fr.files.head?.bind fun cf => cf.image.map (·.url)

/-- See `fileRecordImageUrl`. -/
def claimedUploadUrl (fr : FileCreateResponse) (resourceUrl : String) : String :=
  (fileRecordImageUrl fr).getD resourceUrl

/-- Session ids are pairwise distinct (the regime in which the
`scalar_one_or_none` lookups of the source are total, and the embedded
map-updates coincide with them). -/
def sessionIdsNodup (db : DB) : Prop :=
  db.sessions.Pairwise (fun a b => a.id ≠ b.id)

instance (db : DB) : Decidable (sessionIdsNodup db) := by
  unfold sessionIdsNodup
  infer_instance

/-- The denormalized counters of every session row equal the actual
counts of its Message and GeneratedImage rows. -/
def countersInvariant (db : DB) : Prop :=
  ∀ s ∈ db.sessions,
    s.messagesCount = (db.messagesOf s.id).length ∧
    s.imagesGenerated = (db.imagesOf s.id).length

instance (db : DB) : Decidable (countersInvariant db) := by
  unfold countersInvariant
  infer_instance

/-! ## Shared concrete fixtures -/

/-- The default service configuration. -/
def cfgX : GeminiConfig := ⟨"gemini-3-pro-image-preview"⟩

/-- A session row with zero counters. -/
def sessionA : SessionRow := ⟨"s1", "sns_instagram_square", "active", none, none, 0, 0, 0⟩

/-- A store holding just `sessionA`. -/
def db0 : DB := ⟨[sessionA], [], [], 0⟩

/-- A first inline payload. -/
def blobA : Blob := ⟨"image/png", [1, 2, 3]⟩

/-- A second, different inline payload. -/
def blobB : Blob := ⟨"image/jpeg", [9, 9, 9]⟩

/-- A fetcher whose every request raises. -/
def fetchNone : String → FetchOutcome := fun _ => .exn "connection error"

/-- An oracle whose generation succeeds with one inline image but whose
Shopify upload raises. -/
def orcUploadFail : WsOracle :=
  ⟨.ok "chat reply", .ok [GPart.inlineData blobA], fetchNone, .error "upload boom", 42⟩

/-- An oracle whose text-chat remote call raises. -/
def orcChatFail : WsOracle :=
  ⟨.error "boom", .ok [GPart.inlineData blobA], fetchNone, .ok ⟨"https://cdn/x.png", none, none⟩, 42⟩

/-! ## Helper lemmas -/

/-- The image accumulator of the `converse` parsing loop ends at the
last inline part, or at its initial value when there is none. -/
theorem converseLoop_snd (ps : List GPart) (t : Option String) (img : Option Blob) :
    (converseLoop ps t img).2 =
      match lastInlinePart ps with
      | some b => some b
      | none => img := by
  induction ps generalizing t img with
  | nil => rfl
  | cons p ps ih =>
    cases p with
    | text s =>
      by_cases hs : s = ""
      · simp [converseLoop, hs, lastInlinePart, ih]
      · cases t with
        | none => simp [converseLoop, hs, lastInlinePart, ih]
        | some t0 => simp [converseLoop, hs, lastInlinePart, ih]
    | inlineData b =>
      simp only [converseLoop, lastInlinePart, ih]
      cases lastInlinePart ps <;> rfl

/-- The text accumulator of the `converse` parsing loop folds the
nonempty text parts onto its initial value. -/
theorem converseLoop_fst (ps : List GPart) (t : Option String) (img : Option Blob) :
    (converseLoop ps t img).1 =
      match t with
      | none => joinedTexts ps
      | some t0 => some ((textPieces ps).foldl (fun acc s => acc ++ "\n" ++ s) t0) := by
  induction ps generalizing t img with
  | nil => cases t <;> rfl
  | cons p ps ih =>
    cases p with
    | text s =>
      by_cases hs : s = ""
      · cases t <;> simp [converseLoop, hs, textPieces, joinedTexts, ih]
      · cases t with
        | none => simp [converseLoop, hs, textPieces, joinedTexts, ih]
        | some t0 => simp [converseLoop, hs, textPieces, joinedTexts, ih]
    | inlineData b =>
      cases t <;> simp [converseLoop, textPieces, joinedTexts, ih]

/-- A last inline part is a member of the list. -/
theorem lastInlinePart_mem (ps : List GPart) (b : Blob)
    (h : lastInlinePart ps = some b) : GPart.inlineData b ∈ ps := by
  induction ps with
  | nil => simp [lastInlinePart] at h
  | cons p ps ih =>
    cases p with
    | text s =>
      simp only [lastInlinePart] at h
      exact List.mem_cons_of_mem _ (ih h)
    | inlineData c =>
      simp only [lastInlinePart] at h
      cases hl : lastInlinePart ps with
      | some d =>
        rw [hl] at h
        cases h
        exact List.mem_cons_of_mem _ (ih hl)
      | none =>
        rw [hl] at h
        cases h
        exact List.mem_cons_self _ _

/-- Counting the rows of one session in an appended batch whose rows all
belong to session `sid`. -/
theorem filter_sid_append_length {α} (pick : α → String) (l more : List α)
    (sid tid : String) (hmore : ∀ r ∈ more, pick r = sid) :
    ((l ++ more).filter (fun r => pick r = tid)).length =
      (l.filter (fun r => pick r = tid)).length + (if tid = sid then more.length else 0) := by
  rw [List.filter_append, List.length_append]
  congr 1
  by_cases h : tid = sid
  · rw [if_pos h]
    have : ∀ r ∈ more, (fun r => decide (pick r = tid)) r = true := by
      intro r hr
      simp [hmore r hr, h]
    rw [List.filter_eq_self.mpr this]
  · rw [if_neg h]
    have : ∀ r ∈ more, ¬ ((fun r => decide (pick r = tid)) r = true) := by
      intro r hr
      simp [hmore r hr]
      exact fun heq => h heq.symm
    simp [List.filter_eq_nil_iff.mpr this]

/-- The counter invariant survives a write batch that appends message
and image rows of session `sid` while bumping that session's counters
by exactly the batch sizes. -/
theorem countersInvariant_of_map_append (db : DB) (sid : String)
    (f : SessionRow → SessionRow) (ms : List MessageRow) (is : List ImageRow) (n : Nat)
    (hid : ∀ s, (f s).id = s.id)
    (hm : ∀ s, (f s).messagesCount = s.messagesCount + (if s.id = sid then ms.length else 0))
    (hi : ∀ s, (f s).imagesGenerated = s.imagesGenerated + (if s.id = sid then is.length else 0))
    (hms : ∀ r ∈ ms, r.sessionId = sid)
    (his : ∀ r ∈ is, r.sessionId = sid)
    (hinv : countersInvariant db) :
    countersInvariant ⟨db.sessions.map f, db.messages ++ ms, db.images ++ is, n⟩ := by
  intro s' hs'
  rcases List.mem_map.mp hs' with ⟨s, hs, rfl⟩
  obtain ⟨h1, h2⟩ := hinv s hs
  constructor
  · show (f s).messagesCount = ((db.messages ++ ms).filter (fun m => m.sessionId = (f s).id)).length
    rw [hm, hid, filter_sid_append_length (fun m => m.sessionId) db.messages ms sid s.id hms]
    · exact congrArg (· + _) h1
  · show (f s).imagesGenerated = ((db.images ++ is).filter (fun i => i.sessionId = (f s).id)).length
    rw [hi, hid, filter_sid_append_length (fun i => i.sessionId) db.images is sid s.id his]
    · exact congrArg (· + _) h2

/-- The text-turn write batch (two message rows, counters +2) keeps the
counter invariant. -/
theorem countersInvariant_chat_write (db : DB) (sid : String) (u a : MessageRow) (n : Nat)
    (hu : u.sessionId = sid) (ha : a.sessionId = sid) (hinv : countersInvariant db) :
    countersInvariant
      (update_session_counts ⟨db.sessions, db.messages ++ [u, a], db.images, n⟩ sid 2 0 none) := by
  have key := countersInvariant_of_map_append db sid
    (fun s => if s.id = sid then
      { s with messagesCount := s.messagesCount + 2,
               imagesGenerated := s.imagesGenerated + 0,
               finalImageUrl := s.finalImageUrl }
      else s)
    [u, a] [] n
    (by intro s; by_cases h : s.id = sid <;> simp [h])
    (by intro s; by_cases h : s.id = sid <;> simp [h])
    (by intro s; by_cases h : s.id = sid <;> simp [h])
    (by
      intro r hr
      simp only [List.mem_cons, List.not_mem_nil, or_false] at hr
      rcases hr with rfl | rfl
      exacts [hu, ha])
    (by intro r hr; cases hr)
    hinv
  simpa [update_session_counts, List.append_assoc] using key

/-- The image-turn write batch (two message rows, one image row,
counters +2/+1, final URL set) keeps the counter invariant. -/
theorem countersInvariant_image_write (db : DB) (sid : String) (u a : MessageRow)
    (rec : ImageRow) (n : Nat) (url : String)
    (hu : u.sessionId = sid) (ha : a.sessionId = sid) (hrec : rec.sessionId = sid)
    (hinv : countersInvariant db) :
    countersInvariant
      (update_session_counts ⟨db.sessions, db.messages ++ [u, a], db.images ++ [rec], n⟩
        sid 2 1 (some url)) := by
  have key := countersInvariant_of_map_append db sid
    (fun s => if s.id = sid then
      { s with messagesCount := s.messagesCount + 2,
               imagesGenerated := s.imagesGenerated + 1,
               finalImageUrl := if url = "" then s.finalImageUrl else some url }
      else s)
    [u, a] [rec] n
    (by intro s; by_cases h : s.id = sid <;> simp [h])
    (by intro s; by_cases h : s.id = sid <;> simp [h])
    (by intro s; by_cases h : s.id = sid <;> simp [h])
    (by
      intro r hr
      simp only [List.mem_cons, List.not_mem_nil, or_false] at hr
      rcases hr with rfl | rfl
      exacts [hu, ha])
    (by
      intro r hr
      simp only [List.mem_cons, List.not_mem_nil, or_false] at hr
      subst hr
      exact hrec)
    hinv
  simpa [update_session_counts, List.append_assoc] using key

/-- With no previous-image URL, `refine_image` raises the
no-previous-image error with no remote call at all (computation). -/
theorem refine_image_none_url (cfg : GeminiConfig) (st : GeminiState) (sid feedback : String)
    (purpose : ImagePurpose) (fetch : String → FetchOutcome)
    (genApi : Except String (List GPart)) (ms : Nat) :
    refine_image cfg st sid feedback purpose none fetch genApi ms =
      (.error (.noPreviousImage sid), []) := rfl

/-- Every dispatch arm that ends without an `error` event leaves the
counter invariant intact. -/
theorem wsDispatch_preserves (ctx : WsCtx) (sid mt c : String) (purpose : ImagePurpose)
    (style : Option StylePreset) (orc : WsOracle) (db : DB) (gst : GeminiState)
    (hinv : countersInvariant db)
    (hok : hasErrorEvent (wsDispatch ctx sid mt c purpose style orc db gst).2.2.1 = false) :
    countersInvariant (wsDispatch ctx sid mt c purpose style orc db gst).1 := by
  by_cases hg : ctx.geminiConfigured = true
  · by_cases hct : mt = "chat"
    · subst hct
      cases hc : chat ctx.cfg gst sid c purpose false style orc.genApi orc.textApi orc.elapsedMs with
      | error e => simp [wsDispatch, hg, hc, hasErrorEvent, save_message] at hok
      | ok r =>
        obtain ⟨resp, gst'⟩ := r
        simp [wsDispatch, hg, hc, save_message]
        refine countersInvariant_chat_write db sid _ _ _ ?_ ?_ hinv <;> rfl
    · by_cases hgen : mt = "generate"
      · subst hgen
        cases hge : generate_image ctx.cfg gst c purpose style (some sid) orc.genApi orc.elapsedMs with
        | error e => simp [wsDispatch, hg, hge, hasErrorEvent, save_message] at hok
        | ok r =>
          obtain ⟨generated, gst'⟩ := r
          by_cases hs : ctx.shopifyConfigured = true
          · simp [wsDispatch, hg, hge, hs, wsPersistImageTurn, save_message]
            refine countersInvariant_image_write db sid _ _ _ _ _ ?_ ?_ ?_ hinv <;> rfl
          · simp [wsDispatch, hg, hge, hs, wsPersistImageTurn, save_message]
            refine countersInvariant_image_write db sid _ _ _ _ _ ?_ ?_ ?_ hinv <;> rfl
      · by_cases hrf : mt = "refine"
        · subst hrf
          simp [wsDispatch, hg, hct, hgen, refine_image_none_url, hasErrorEvent,
            save_message] at hok
        · simp [wsDispatch, hg, hct, hgen, hrf, hasErrorEvent] at hok
  · simp [wsDispatch, hg, hasErrorEvent] at hok

/-- Specialization of `countersInvariant_of_map_append` to a text-turn
batch written through a direct session mutation (the REST path). -/
theorem countersInvariant_chat_service_write (db : DB) (sid : String) (u a : MessageRow)
    (f : SessionRow → SessionRow) (n : Nat)
    (hid : ∀ s, (f s).id = s.id)
    (hm : ∀ s, (f s).messagesCount = s.messagesCount + (if s.id = sid then 2 else 0))
    (hi : ∀ s, (f s).imagesGenerated = s.imagesGenerated)
    (hu : u.sessionId = sid) (ha : a.sessionId = sid) (hinv : countersInvariant db) :
    countersInvariant ⟨db.sessions.map f, db.messages ++ [u, a], db.images, n⟩ := by
  have key := countersInvariant_of_map_append db sid f [u, a] [] n hid hm
    (by intro s; simp [hi])
    (by
      intro r hr
      simp only [List.mem_cons, List.not_mem_nil, or_false] at hr
      rcases hr with rfl | rfl
      exacts [hu, ha])
    (by intro r hr; cases hr)
    hinv
  simpa using key

/-- A successful REST `send_message` turn leaves the counter invariant
intact. -/
theorem service_send_message_preserves (cfg : GeminiConfig) (db : DB) (gst : GeminiState)
    (sid c : String) (genApi : Except String (List GPart)) (textApi : Except String String)
    (ms : Nat) (m : MessageRow) (hinv : countersInvariant db)
    (hok : (service_send_message true cfg db gst sid c genApi textApi ms).1 = .ok m) :
    countersInvariant (service_send_message true cfg db gst sid c genApi textApi ms).2.1 := by
  cases hfind : db.sessions.find? (fun s => s.id = sid) with
  | none => simp [service_send_message, hfind] at hok
  | some session =>
    cases hpp : ImagePurpose.ofString session.imagePurpose with
    | none => simp [service_send_message, hfind, hpp, save_message] at hok
    | some purpose =>
      cases hsty : session.stylePreset with
      | none =>
        cases hc : chat cfg gst sid c purpose false none genApi textApi ms with
        | error e => simp [service_send_message, hfind, hpp, hsty, hc, save_message] at hok
        | ok r =>
          obtain ⟨resp, gst'⟩ := r
          simp [service_send_message, hfind, hpp, hsty, hc, save_message]
          refine countersInvariant_chat_service_write db sid _ _ _ _ ?_ ?_ ?_ ?_ ?_ hinv
          · intro s; by_cases h : s.id = sid <;> simp [h]
          · intro s; by_cases h : s.id = sid <;> simp [h]
          · intro s; by_cases h : s.id = sid <;> simp [h]
          · rfl
          · rfl
      | some sname =>
        by_cases hemp : sname = ""
        · cases hc : chat cfg gst sid c purpose false none genApi textApi ms with
          | error e =>
            simp [service_send_message, hfind, hpp, hsty, hemp, hc, save_message] at hok
          | ok r =>
            obtain ⟨resp, gst'⟩ := r
            simp [service_send_message, hfind, hpp, hsty, hemp, hc, save_message]
            refine countersInvariant_chat_service_write db sid _ _ _ _ ?_ ?_ ?_ ?_ ?_ hinv
            · intro s; by_cases h : s.id = sid <;> simp [h]
            · intro s; by_cases h : s.id = sid <;> simp [h]
            · intro s; by_cases h : s.id = sid <;> simp [h]
            · rfl
            · rfl
        · cases hofs : StylePreset.ofString sname with
          | none =>
            simp [service_send_message, hfind, hpp, hsty, hemp, hofs, save_message] at hok
          | some stp =>
            cases hc : chat cfg gst sid c purpose false (some stp) genApi textApi ms with
            | error e =>
              simp [service_send_message, hfind, hpp, hsty, hemp, hofs, hc, save_message] at hok
            | ok r =>
              obtain ⟨resp, gst'⟩ := r
              simp [service_send_message, hfind, hpp, hsty, hemp, hofs, hc, save_message]
              refine countersInvariant_chat_service_write db sid _ _ _ _ ?_ ?_ ?_ ?_ ?_ hinv
              · intro s; by_cases h : s.id = sid <;> simp [h]
              · intro s; by_cases h : s.id = sid <;> simp [h]
              · intro s; by_cases h : s.id = sid <;> simp [h]
              · rfl
              · rfl

/-! ## Claim theorems -/

/-- C3 counterexample: a `converse` frame (with the Gemini service
configured) is answered by the unknown-message-type error event and
leaves the store and history untouched — the handler does not run the
converse flow. -/
theorem converse_frame_yields_unknown_type_error :
    wsStep ⟨true, true, cfgX⟩ "s1" ⟨some "converse", some "hi", none, none⟩
        orcUploadFail db0 GeminiState.init =
      (db0, GeminiState.init, [.error "알 수 없는 메시지 타입: converse"], []) := by
  decide

/-- C3 (amended): the WebSocket handler dispatches only `chat`,
`generate` and `refine`; an inbound frame whose type is `converse` is
treated as an unknown message type and yields a single error event, with
no store write, no history change, and no remote call. -/
theorem converse_frame_is_unknown_type (ctx : WsCtx) (sid : String) (frame : Frame)
    (orc : WsOracle) (db : DB) (gst : GeminiState)
    (hg : ctx.geminiConfigured = true) (ht : frame.type = some "converse") :
    wsStep ctx sid frame orc db gst =
      (db, gst, [.error "알 수 없는 메시지 타입: converse"], []) := by
  simp [wsStep, wsDispatch, ht, hg]

/-- Witness for `converse_frame_is_unknown_type` at a concrete input. -/
theorem converse_frame_is_unknown_type_witness :
    wsStep ⟨true, false, cfgX⟩ "s9" ⟨some "converse", some "안녕", none, none⟩
        orcChatFail db0 GeminiState.init =
      (db0, GeminiState.init, [.error "알 수 없는 메시지 타입: converse"], []) :=
  converse_frame_is_unknown_type ⟨true, false, cfgX⟩ "s9"
    ⟨some "converse", some "안녕", none, none⟩ orcChatFail db0 GeminiState.init rfl rfl

/-- C7: with both Shopify settings truthy, the WebSocket handler calls
`ShopifyFilesService(store_url=..., access_token=...)` against a
constructor whose parameters are `store_url`, `client_id`,
`client_secret` — CPython rejects the binding with a `TypeError` for
the unexpected keyword `access_token`. -/
theorem shopify_construction_raises_type_error (u t : String) (hu : u ≠ "") (ht : t ≠ "") :
    wsInitShopify u t = .error (.unexpectedKeyword "access_token") := by
  unfold wsInitShopify
  rw [if_pos (⟨hu, ht⟩ : u ≠ "" ∧ t ≠ "")]
  rfl

/-- Witness for `shopify_construction_raises_type_error`. -/
theorem shopify_construction_raises_type_error_witness :
    wsInitShopify "https://mystore.myshopify.com" "shpat-abc" =
      .error (.unexpectedKeyword "access_token") :=
  shopify_construction_raises_type_error "https://mystore.myshopify.com" "shpat-abc"
    (by decide) (by decide)

/-- C8: a purpose string outside the enumeration silently falls back to
the default square preset, a style string outside the enumeration is
silently dropped to no style, and the handler behaves identically to a
frame carrying the defaults — no error is produced for either value. -/
theorem malformed_enum_values_fall_back_silently
    (p s : String) (hp : ImagePurpose.ofString p = none) (hs : StylePreset.ofString s = none)
    (ctx : WsCtx) (sid : String) (t c : Option String) (orc : WsOracle)
    (db : DB) (gst : GeminiState) :
    parsePurpose p = ImagePurpose.sns_instagram_square ∧
    parseStyle (some s) = none ∧
    wsStep ctx sid ⟨t, c, some p, some s⟩ orc db gst =
      wsStep ctx sid ⟨t, c, some "sns_instagram_square", none⟩ orc db gst := by
  have h1 : parsePurpose p = ImagePurpose.sns_instagram_square := by simp [parsePurpose, hp]
  have h2 : parseStyle (some s) = none := by
    by_cases hemp : s = "" <;> simp [parseStyle, hemp, hs]
  refine ⟨h1, h2, ?_⟩
  simp only [wsStep, Option.getD_some]
  rw [h1, h2]
  rfl

/-- Witness for `malformed_enum_values_fall_back_silently`. -/
theorem malformed_enum_values_fall_back_silently_witness :
    parsePurpose "sns_instagram" = ImagePurpose.sns_instagram_square ∧
    parseStyle (some "fancy") = none ∧
    wsStep ⟨true, true, cfgX⟩ "s1" ⟨some "chat", some "hi", some "sns_instagram", some "fancy"⟩
        orcChatFail db0 GeminiState.init =
      wsStep ⟨true, true, cfgX⟩ "s1"
        ⟨some "chat", some "hi", some "sns_instagram_square", none⟩
        orcChatFail db0 GeminiState.init :=
  malformed_enum_values_fall_back_silently "sns_instagram" "fancy" (by decide) (by decide)
    ⟨true, true, cfgX⟩ "s1" (some "chat") (some "hi") orcChatFail db0 GeminiState.init

/-- C10: every REST request builds a fresh `ImageChatService`, whose
Gemini client starts with an empty history map, so a REST chat turn
sends only the system prompt and the new message — while within one
client instance (one WebSocket connection) a chat turn does append both
turns to the in-memory history. -/
theorem rest_request_starts_with_empty_history
    (key sid msg t : String) (cfg : GeminiConfig) (purpose : ImagePurpose)
    (genApi : Except String (List GPart)) (ms : Nat) (hk : key ≠ "") :
    restRequestGeminiState key = some GeminiState.init ∧
    GeminiState.init.getHistory sid = [] ∧
    chatContents GeminiState.init sid msg =
      [⟨"user", [GPart.text CHAT_SYSTEM_PROMPT]⟩, ⟨"user", [GPart.text msg]⟩] ∧
    chat cfg GeminiState.init sid msg purpose false none genApi (.ok t) ms =
      .ok (⟨some t, none, 0, ms⟩,
        GeminiState.init.appendHistory sid
          [⟨"user", [GPart.text msg]⟩, ⟨"model", [GPart.text t]⟩]) ∧
    (GeminiState.init.appendHistory sid
        [⟨"user", [GPart.text msg]⟩, ⟨"model", [GPart.text t]⟩]).getHistory sid =
      [⟨"user", [GPart.text msg]⟩, ⟨"model", [GPart.text t]⟩] := by
  refine ⟨by simp [restRequestGeminiState, serviceInitGeminiState, hk], ?_, ?_, rfl, ?_⟩
  · simp [GeminiState.getHistory, GeminiState.init]
  · simp [chatContents, GeminiState.getHistory, GeminiState.init]
  · simp [GeminiState.appendHistory, GeminiState.setHistory, GeminiState.getHistory,
      GeminiState.init]

/-- Witness for `rest_request_starts_with_empty_history`. -/
theorem rest_request_starts_with_empty_history_witness :
    restRequestGeminiState "api-key" = some GeminiState.init ∧
    GeminiState.init.getHistory "s1" = [] ∧
    chatContents GeminiState.init "s1" "hello" =
      [⟨"user", [GPart.text CHAT_SYSTEM_PROMPT]⟩, ⟨"user", [GPart.text "hello"]⟩] ∧
    chat cfgX GeminiState.init "s1" "hello" ImagePurpose.sns_instagram_square false none
        (.error "unused") (.ok "reply") 7 =
      .ok (⟨some "reply", none, 0, 7⟩,
        GeminiState.init.appendHistory "s1"
          [⟨"user", [GPart.text "hello"]⟩, ⟨"model", [GPart.text "reply"]⟩]) ∧
    (GeminiState.init.appendHistory "s1"
        [⟨"user", [GPart.text "hello"]⟩, ⟨"model", [GPart.text "reply"]⟩]).getHistory "s1" =
      [⟨"user", [GPart.text "hello"]⟩, ⟨"model", [GPart.text "reply"]⟩] :=
  rest_request_starts_with_empty_history "api-key" "s1" "hello" "reply" cfgX
    ImagePurpose.sns_instagram_square (.error "unused") 7 (by decide)

/-- A response part list with one text part and two inline parts. -/
def twoInlineParts : List GPart :=
  [GPart.text "hello", GPart.inlineData blobA, GPart.inlineData blobB]

/-- C5 counterexample: on a response holding two inline parts,
`converse` returns the second (last) inline part as the image, not the
first — `blobB`, where the claim demands `blobA`. -/
theorem converse_image_not_first_inline :
    ((converse cfgX GeminiState.init "s1" "msg" ImagePurpose.sns_instagram_square none
          none fetchNone twoInlineParts 5).1.image.map
        (fun gi => Blob.mk gi.mimeType gi.imageData)) = some blobB ∧
    firstInlinePart twoInlineParts = some blobA ∧
    blobA ≠ blobB := by
  decide

/-- C5 (amended): the text returned by `converse` is the newline-joined
concatenation of the nonempty text parts in order, and (when inline
payloads are nonempty) the returned image is the **last** inline binary
part of the response. -/
theorem converse_parses_text_join_and_last_inline
    (cfg : GeminiConfig) (st : GeminiState) (sid msg : String) (purpose : ImagePurpose)
    (style : Option StylePreset) (prevUrl : Option String) (fetch : String → FetchOutcome)
    (parts : List GPart) (ms : Nat)
    (h : ∀ p ∈ parts,
      match p with
      | GPart.inlineData b => b.data ≠ []
      | GPart.text _ => True) :
    (converse cfg st sid msg purpose style prevUrl fetch parts ms).1.text =
      joinedTexts parts ∧
    ((converse cfg st sid msg purpose style prevUrl fetch parts ms).1.image.map
        (fun gi => Blob.mk gi.mimeType gi.imageData)) = lastInlinePart parts := by
  have h1 := converseLoop_fst parts none none
  have h2 := converseLoop_snd parts none none
  rcases hpp : converseParse parts with ⟨t, i⟩
  rw [converseParse] at hpp
  rw [hpp] at h1 h2
  constructor
  · show (converse cfg st sid msg purpose style prevUrl fetch parts ms).1.text = _
    simp only [converse, converseParse, hpp]
    exact h1
  · show ((converse cfg st sid msg purpose style prevUrl fetch parts ms).1.image.map _) = _
    simp only [converse, converseParse, hpp]
    cases hl : lastInlinePart parts with
    | none =>
      rw [hl] at h2
      simp only at h2
      subst h2
      simp
    | some b =>
      rw [hl] at h2
      simp only at h2
      subst h2
      have hb : b.data ≠ [] := by
        have := h (GPart.inlineData b) (lastInlinePart_mem parts b hl)
        simpa using this
      simp [hb]

/-- Witness for `converse_parses_text_join_and_last_inline`. -/
theorem converse_parses_text_join_and_last_inline_witness :
    (converse cfgX GeminiState.init "s1" "msg" ImagePurpose.sns_instagram_square none
        none fetchNone twoInlineParts 5).1.text = joinedTexts twoInlineParts ∧
    ((converse cfgX GeminiState.init "s1" "msg" ImagePurpose.sns_instagram_square none
        none fetchNone twoInlineParts 5).1.image.map
      (fun gi => Blob.mk gi.mimeType gi.imageData)) = lastInlinePart twoInlineParts :=
  converse_parses_text_join_and_last_inline cfgX GeminiState.init "s1" "msg"
    ImagePurpose.sns_instagram_square none none fetchNone twoInlineParts 5
    (by
      intro p hp
      simp only [twoInlineParts, List.mem_cons, List.not_mem_nil, or_false] at hp
      rcases hp with rfl | rfl | rfl <;> simp [blobA, blobB])

/-- C6: when no previous image is resolvable — no URL given, or the
HTTP fetch of it does not return success — `refine_image` fails with an
error and its remote-call trace contains no generation call. -/
theorem refine_no_resolvable_image_fails_before_generation
    (cfg : GeminiConfig) (st : GeminiState) (sid feedback : String) (purpose : ImagePurpose)
    (prevUrl : Option String) (fetch : String → FetchOutcome)
    (genApi : Except String (List GPart)) (ms : Nat)
    (h : prevUrl = none ∨ ∃ url, prevUrl = some url ∧ (fetch url).ok200 = false) :
    (∃ e, (refine_image cfg st sid feedback purpose prevUrl fetch genApi ms).1 = .error e) ∧
      RemoteCall.generateContent ∉
        (refine_image cfg st sid feedback purpose prevUrl fetch genApi ms).2 := by
  rcases h with rfl | ⟨url, rfl, hfail⟩
  · exact ⟨⟨.noPreviousImage sid, by rw [refine_image_none_url]⟩,
      by rw [refine_image_none_url]; simp⟩
  · by_cases hemp : url = ""
    · subst hemp
      refine ⟨⟨.noPreviousImage sid, ?_⟩, ?_⟩ <;>
        simp [refine_image, resolve_previous_image]
    · cases hf : fetch url with
      | exn msg =>
        refine ⟨⟨.fetchFailed msg, ?_⟩, ?_⟩ <;>
          simp [refine_image, resolve_previous_image, hemp, hf]
      | response status body ct =>
        have hst : status ≠ 200 := by
          rw [hf] at hfail
          simpa [FetchOutcome.ok200] using hfail
        refine ⟨⟨.noPreviousImage sid, ?_⟩, ?_⟩ <;>
          simp [refine_image, resolve_previous_image, hemp, hf, hst]

/-- Witness for `refine_no_resolvable_image_fails_before_generation`. -/
theorem refine_no_resolvable_image_fails_before_generation_witness :
    (∃ e, (refine_image cfgX GeminiState.init "s1" "darker" ImagePurpose.banner_web
        none fetchNone (.ok [GPart.inlineData blobA]) 9).1 = .error e) ∧
      RemoteCall.generateContent ∉
        (refine_image cfgX GeminiState.init "s1" "darker" ImagePurpose.banner_web
          none fetchNone (.ok [GPart.inlineData blobA]) 9).2 :=
  refine_no_resolvable_image_fails_before_generation cfgX GeminiState.init "s1" "darker"
    ImagePurpose.banner_web none fetchNone (.ok [GPart.inlineData blobA]) 9 (Or.inl rfl)

/-- C9: a successful `upload_image` returns the created file record's
image URL when one is immediately available, and otherwise the staging
step's `resourceUrl`. -/
theorem upload_url_from_file_record_else_resource_url
    (tok : Except String String) (staged : StagedResponse) (ts : Nat)
    (fileResp : FileCreateResponse) (bytes : List Nat) (fn mime : String)
    (alt : Option String) (t : StagedTarget) (uf : UploadedFile)
    (hhead : staged.stagedTargets.head? = some t)
    (hok : upload_image tok staged ts fileResp bytes fn mime alt = .ok uf) :
    uf.url = claimedUploadUrl fileResp t.resourceUrl := by
  unfold upload_image at hok
  cases tok with
  | error m => simp at hok
  | ok token =>
    cases hse : staged.errors with
    | some m => simp [hse] at hok
    | none =>
      rw [hse] at hok
      by_cases hue : staged.userErrors = []
      · simp only [hue, ne_eq, not_true_eq_false, if_false, hhead] at hok
        by_cases hts : ts ≠ 200 ∧ ts ≠ 201 ∧ ts ≠ 204
        · simp [hts] at hok
        · rw [if_neg hts] at hok
          cases hfe : fileResp.errors with
          | some m => simp [hfe] at hok
          | none =>
            rw [hfe] at hok
            by_cases hfu : fileResp.userErrors = []
            · simp only [hfu, ne_eq, not_true_eq_false, if_false, Except.ok.injEq] at hok
              subst hok
              unfold claimedUploadUrl fileRecordImageUrl
              cases hcf : fileResp.files.head? with
              | none => simp [hcf]
              | some cf =>
                cases hci : cf.image with
                | none => simp [hcf, hci]
                | some img => simp [hcf, hci]
            · simp [hfu] at hok
      · simp [hue] at hok

/-- Witness for `upload_url_from_file_record_else_resource_url`. -/
theorem upload_url_from_file_record_else_resource_url_witness :
    (⟨"https://cdn.shopify.com/final.png", some "alt", some "gid-1"⟩ : UploadedFile).url =
      claimedUploadUrl
        ⟨none, [], [⟨"gid-1", some ⟨"https://cdn.shopify.com/final.png"⟩⟩]⟩
        "https://staged/resource" :=
  upload_url_from_file_record_else_resource_url (.ok "token")
    ⟨none, [], [⟨"https://staged/upload", "https://staged/resource", []⟩]⟩ 201
    ⟨none, [], [⟨"gid-1", some ⟨"https://cdn.shopify.com/final.png"⟩⟩]⟩
    [1, 2] "f.png" "image/png" (some "alt")
    ⟨"https://staged/upload", "https://staged/resource", []⟩
    ⟨"https://cdn.shopify.com/final.png", some "alt", some "gid-1"⟩
    (by decide) rfl

/-- The `generate` turn used by the C1 counterexample: Shopify client
configured, generation succeeding, upload raising. -/
def uploadFailRun : DB × GeminiState × List WsEvent × List RemoteCall :=
  wsStep ⟨true, true, cfgX⟩ "s1" ⟨some "generate", some "hello", none, none⟩
    orcUploadFail db0 GeminiState.init

/-- C1 counterexample: with an upload client configured and the upload
step failing, the turn does not fail — no error event is sent, and an
assistant Message and a GeneratedImage row are still persisted. -/
theorem upload_failure_turn_still_succeeds :
    hasErrorEvent uploadFailRun.2.2.1 = false ∧
    uploadFailRun.1.messages.length = 2 ∧
    uploadFailRun.1.images.length = 1 ∧
    uploadFailRun.1.messages.map (fun m => m.role) = ["user", "assistant"] := by
  decide

/-- C1 (amended): on an image-producing WebSocket turn with an upload
client configured, a failing upload step is caught and the image falls
back to being inlined as a base64 data URL — the same degraded mode as
when no upload client is configured — and the turn still succeeds,
persisting the assistant Message and GeneratedImage with that data
URL. -/
theorem upload_failure_inlines_base64
    (ctx : WsCtx) (sid : String) (frame : Frame) (orc : WsOracle) (db : DB) (gst : GeminiState)
    (parts : List GPart) (blob : Blob) (e : String)
    (hg : ctx.geminiConfigured = true) (hs : ctx.shopifyConfigured = true)
    (ht : frame.type = some "generate")
    (hgen : orc.genApi = .ok parts) (hx : extractFirstImage parts = some blob)
    (hup : orc.uploadOutcome = .error e) :
    (wsStep ctx sid frame orc db gst).2.2.1 =
      [.status "이미지 생성 중...", .status "이미지 저장 중...",
       .image "이미지가 생성되었습니다."
         ("data:" ++ blob.mimeType ++ ";base64," ++ base64Encode blob.data)] ∧
    hasErrorEvent (wsStep ctx sid frame orc db gst).2.2.1 = false ∧
    (wsStep ctx sid frame orc db gst).1.messages.length = db.messages.length + 2 ∧
    (wsStep ctx sid frame orc db gst).1.images.length = db.images.length + 1 ∧
    ((wsStep ctx sid frame orc db gst).1.messages.getLast?).map (fun m => m.imageUrl) =
      some (some ("data:" ++ blob.mimeType ++ ";base64," ++ base64Encode blob.data)) := by
  refine ⟨?_, ?_, ?_, ?_, ?_⟩ <;>
    simp [wsStep, ht, wsDispatch, hg, generate_image, hgen, hx, wsPersistImageTurn, hs, hup,
      save_message, update_session_counts, hasErrorEvent, dataUrl]

/-- Witness for `upload_failure_inlines_base64`. -/
theorem upload_failure_inlines_base64_witness :
    uploadFailRun.2.2.1 =
      [.status "이미지 생성 중...", .status "이미지 저장 중...",
       .image "이미지가 생성되었습니다."
         ("data:" ++ blobA.mimeType ++ ";base64," ++ base64Encode blobA.data)] ∧
    hasErrorEvent uploadFailRun.2.2.1 = false ∧
    uploadFailRun.1.messages.length = db0.messages.length + 2 ∧
    uploadFailRun.1.images.length = db0.images.length + 1 ∧
    (uploadFailRun.1.messages.getLast?).map (fun m => m.imageUrl) =
      some (some ("data:" ++ blobA.mimeType ++ ";base64," ++ base64Encode blobA.data)) :=
  upload_failure_inlines_base64 ⟨true, true, cfgX⟩ "s1"
    ⟨some "generate", some "hello", none, none⟩ orcUploadFail db0 GeminiState.init
    [GPart.inlineData blobA] blobA "upload boom" rfl rfl rfl rfl (by decide) rfl

/-- C2: on both refine entry points (`ImageChatService.refine_image`
and the WebSocket `refine` arm), `GeminiImageService.refine_image` is
invoked without a previous-image URL, so — once the session check and
enum parse pass, which is after the user's feedback Message is
persisted — the turn raises the no-previous-image error, makes no
generation call, and never persists an assistant Message or a
GeneratedImage row. -/
theorem refine_turn_always_raises_no_previous_image
    (cfg : GeminiConfig) (db : DB) (gst : GeminiState) (sid feedback : String)
    (fetch : String → FetchOutcome) (genApi : Except String (List GPart)) (ms : Nat)
    (ctx : WsCtx) (frame : Frame) (orc : WsOracle)
    (hg : ctx.geminiConfigured = true) (ht : frame.type = some "refine") :
    ((∃ m, (service_refine_image true cfg db gst sid feedback fetch genApi ms).1 = .error m) ∧
     (service_refine_image true cfg db gst sid feedback fetch genApi ms).2.1.images = db.images ∧
     ((service_refine_image true cfg db gst sid feedback fetch genApi ms).2.1.messages = db.messages ∨
       (service_refine_image true cfg db gst sid feedback fetch genApi ms).2.1.messages =
         db.messages ++ [⟨db.nextId, sid, "user", "text",
           some ("[이미지 개선 요청] " ++ feedback), none, 0, none⟩]) ∧
     RemoteCall.generateContent ∉
       (service_refine_image true cfg db gst sid feedback fetch genApi ms).2.2.2 ∧
     (∀ s, db.sessions.find? (fun s0 => s0.id = sid) = some s →
       ∀ p, ImagePurpose.ofString s.imagePurpose = some p →
         (service_refine_image true cfg db gst sid feedback fetch genApi ms).1 =
           .error (GeminiError.toMessage (.noPreviousImage sid)))) ∧
    ((wsStep ctx sid frame orc db gst).2.2.1 =
       [.status "이미지 개선 중...",
        .error ("오류 발생: " ++ GeminiError.toMessage (.noPreviousImage sid))] ∧
     (wsStep ctx sid frame orc db gst).1.messages =
       db.messages ++ [⟨db.nextId, sid, "user", "text",
         some ("[이미지 개선] " ++ frame.content.getD ""), none, 0, none⟩] ∧
     (wsStep ctx sid frame orc db gst).1.images = db.images ∧
     (wsStep ctx sid frame orc db gst).2.1 = gst ∧
     (wsStep ctx sid frame orc db gst).2.2.2 = []) := by
  constructor
  · cases hfind : db.sessions.find? (fun s => s.id = sid) with
    | none =>
      refine ⟨⟨"세션을 찾을 수 없습니다: " ++ sid, ?_⟩, ?_, Or.inl ?_, ?_, ?_⟩ <;>
        simp [service_refine_image, hfind]
    | some s =>
      cases hpp : ImagePurpose.ofString s.imagePurpose with
      | none =>
        refine ⟨⟨s.imagePurpose ++ " is not a valid ImagePurpose", ?_⟩, ?_, Or.inr ?_, ?_, ?_⟩ <;>
          simp [service_refine_image, hfind, hpp, save_message]
      | some p =>
        refine ⟨⟨GeminiError.toMessage (.noPreviousImage sid), ?_⟩, ?_, Or.inr ?_, ?_, ?_⟩ <;>
          simp [service_refine_image, hfind, hpp, save_message, refine_image_none_url]
  · refine ⟨?_, ?_, ?_, ?_, ?_⟩ <;>
      simp [wsStep, ht, wsDispatch, hg, refine_image_none_url, save_message,
        GeminiError.toMessage]

/-- Witness for `refine_turn_always_raises_no_previous_image`. -/
theorem refine_turn_always_raises_no_previous_image_witness :
    ((∃ m, (service_refine_image true cfgX db0 GeminiState.init "s1" "darker" fetchNone
        (.ok [GPart.inlineData blobA]) 3).1 = .error m) ∧
     (service_refine_image true cfgX db0 GeminiState.init "s1" "darker" fetchNone
        (.ok [GPart.inlineData blobA]) 3).2.1.images = db0.images ∧
     ((service_refine_image true cfgX db0 GeminiState.init "s1" "darker" fetchNone
        (.ok [GPart.inlineData blobA]) 3).2.1.messages = db0.messages ∨
       (service_refine_image true cfgX db0 GeminiState.init "s1" "darker" fetchNone
          (.ok [GPart.inlineData blobA]) 3).2.1.messages =
         db0.messages ++ [⟨db0.nextId, "s1", "user", "text",
           some ("[이미지 개선 요청] " ++ "darker"), none, 0, none⟩]) ∧
     RemoteCall.generateContent ∉
       (service_refine_image true cfgX db0 GeminiState.init "s1" "darker" fetchNone
         (.ok [GPart.inlineData blobA]) 3).2.2.2 ∧
     (∀ s, db0.sessions.find? (fun s0 => s0.id = "s1") = some s →
       ∀ p, ImagePurpose.ofString s.imagePurpose = some p →
         (service_refine_image true cfgX db0 GeminiState.init "s1" "darker" fetchNone
            (.ok [GPart.inlineData blobA]) 3).1 =
           .error (GeminiError.toMessage (.noPreviousImage "s1")))) ∧
    ((wsStep ⟨true, true, cfgX⟩ "s1" ⟨some "refine", some "darker", none, none⟩
        orcUploadFail db0 GeminiState.init).2.2.1 =
       [.status "이미지 개선 중...",
        .error ("오류 발생: " ++ GeminiError.toMessage (.noPreviousImage "s1"))] ∧
     (wsStep ⟨true, true, cfgX⟩ "s1" ⟨some "refine", some "darker", none, none⟩
        orcUploadFail db0 GeminiState.init).1.messages =
       db0.messages ++ [⟨db0.nextId, "s1", "user", "text",
         some ("[이미지 개선] " ++
           (Frame.content ⟨some "refine", some "darker", none, none⟩).getD ""),
         none, 0, none⟩] ∧
     (wsStep ⟨true, true, cfgX⟩ "s1" ⟨some "refine", some "darker", none, none⟩
        orcUploadFail db0 GeminiState.init).1.images = db0.images ∧
     (wsStep ⟨true, true, cfgX⟩ "s1" ⟨some "refine", some "darker", none, none⟩
        orcUploadFail db0 GeminiState.init).2.1 = GeminiState.init ∧
     (wsStep ⟨true, true, cfgX⟩ "s1" ⟨some "refine", some "darker", none, none⟩
        orcUploadFail db0 GeminiState.init).2.2.2 = []) :=
  refine_turn_always_raises_no_previous_image cfgX db0 GeminiState.init "s1" "darker"
    fetchNone (.ok [GPart.inlineData blobA]) 3 ⟨true, true, cfgX⟩
    ⟨some "refine", some "darker", none, none⟩ orcUploadFail rfl rfl

/-- The `chat` turn used by the C4 counterexample: the remote chat call
raises after the user Message was persisted. -/
def chatFailRun : DB × GeminiState × List WsEvent × List RemoteCall :=
  wsStep ⟨true, true, cfgX⟩ "s1" ⟨some "chat", some "hi", none, none⟩
    orcChatFail db0 GeminiState.init

/-- C4 counterexample: a turn that fails after the user Message is
persisted leaves the session's `messages_count` (still 0) below the
actual Message row count (1) — the counters do not equal the row counts
at all times. -/
theorem failed_turn_breaks_counter_invariant :
    countersInvariant db0 ∧ sessionIdsNodup db0 ∧
    hasErrorEvent chatFailRun.2.2.1 = true ∧
    ¬ countersInvariant chatFailRun.1 ∧
    (chatFailRun.1.messagesOf "s1").length = 1 ∧
    (chatFailRun.1.sessions.map (fun s => s.messagesCount)) = [0] := by
  decide

/-- C4 (amended): the counter invariant is maintained across turns that
complete without an error event — so `messages_count` is `2N` after `N`
successful turns — on both cited write paths (the WebSocket handler and
the REST `send_message`); but a turn that fails after the user Message
is persisted leaves the counters behind the actual row counts. -/
theorem counters_invariant_preserved_on_success
    (ctx : WsCtx) (sid : String) (frame : Frame) (orc : WsOracle) (db : DB) (gst : GeminiState)
    (cfg : GeminiConfig) (sid2 c2 : String) (genApi2 : Except String (List GPart))
    (textApi2 : Except String String) (ms2 : Nat)
    (_hnd : sessionIdsNodup db) (hinv : countersInvariant db) :
    (hasErrorEvent (wsStep ctx sid frame orc db gst).2.2.1 = false →
      countersInvariant (wsStep ctx sid frame orc db gst).1) ∧
    (∀ m, (service_send_message true cfg db gst sid2 c2 genApi2 textApi2 ms2).1 = .ok m →
      countersInvariant (service_send_message true cfg db gst sid2 c2 genApi2 textApi2 ms2).2.1) :=
  ⟨fun hok => wsDispatch_preserves ctx sid (frame.type.getD "chat") (frame.content.getD "")
      (parsePurpose (frame.purpose.getD "sns_instagram_square")) (parseStyle frame.style)
      orc db gst hinv hok,
   fun m hm => service_send_message_preserves cfg db gst sid2 c2 genApi2 textApi2 ms2 m hinv hm⟩

/-- Witness for `counters_invariant_preserved_on_success`. -/
theorem counters_invariant_preserved_on_success_witness :
    (hasErrorEvent (wsStep ⟨true, false, cfgX⟩ "s1" ⟨some "chat", some "hi", none, none⟩
        orcUploadFail db0 GeminiState.init).2.2.1 = false →
      countersInvariant (wsStep ⟨true, false, cfgX⟩ "s1" ⟨some "chat", some "hi", none, none⟩
        orcUploadFail db0 GeminiState.init).1) ∧
    (∀ m, (service_send_message true cfgX db0 GeminiState.init "s1" "hi"
        (.ok [GPart.inlineData blobA]) (.ok "reply") 4).1 = .ok m →
      countersInvariant (service_send_message true cfgX db0 GeminiState.init "s1" "hi"
        (.ok [GPart.inlineData blobA]) (.ok "reply") 4).2.1) :=
  counters_invariant_preserved_on_success ⟨true, false, cfgX⟩ "s1"
    ⟨some "chat", some "hi", none, none⟩ orcUploadFail db0 GeminiState.init cfgX "s1" "hi"
    (.ok [GPart.inlineData blobA]) (.ok "reply") 4 (by decide) (by decide)

end ImageChat
